import Mathlib

/-!
Verification of the fitnessllm-dataplatform bronze/silver ETL core.

Shallow embedding of the Python sources:
  fitnessllm_dataplatform/stream/strava/entities/queries.py
  fitnessllm_dataplatform/stream/strava/services/bronze_etl_interface.py
  fitnessllm_dataplatform/stream/strava/services/silver_etl_interface.py
  fitnessllm_dataplatform/utils/query_utils.py
  fitnessllm_dataplatform/entities/dataclasses.py
  fitnessllm_dataplatform/entities/enums.py
  fitnessllm_dataplatform/stream/strava/entities/enums.py
-/

/-- Status enum from entities/enums.py. -/
inductive Status
  | SUCCESS
  | FAILURE
deriving DecidableEq

/-- Status member value strings, as persisted (status.value in Python). -/
def Status.value : Status → String
  | Status.SUCCESS => "SUCCESS"
  | Status.FAILURE => "FAILURE"

/-- FitnessLLMDataSource enum from entities/enums.py. -/
inductive FitnessLLMDataSource
  | STRAVA
deriving DecidableEq

/-- Enum value string (data_source.value in Python). -/
def FitnessLLMDataSource.value : FitnessLLMDataSource → String
  | FitnessLLMDataSource.STRAVA => "STRAVA"

/-- StravaStreams enum from stream/strava/entities/enums.py. -/
inductive StravaStreams
  | ACTIVITY
  | ATHLETE_SUMMARY
  | TIME
  | DISTANCE
  | LATLNG
  | ALTITUDE
  | VELOCITY_SMOOTH
  | HEARTRATE
  | CADENCE
  | WATTS
  | TEMP
  | MOVING
  | GRADE_SMOOTH
deriving DecidableEq

/-- Enum value string of each StravaStreams member (stream.value in Python). -/
def StravaStreams.value : StravaStreams → String
  | StravaStreams.ACTIVITY => "activity"
  | StravaStreams.ATHLETE_SUMMARY => "athlete_summary"
  | StravaStreams.TIME => "time"
  | StravaStreams.DISTANCE => "distance"
  | StravaStreams.LATLNG => "latlng"
  | StravaStreams.ALTITUDE => "altitude"
  | StravaStreams.VELOCITY_SMOOTH => "velocity_smooth"
  | StravaStreams.HEARTRATE => "heartrate"
  | StravaStreams.CADENCE => "cadence"
  | StravaStreams.WATTS => "watts"
  | StravaStreams.TEMP => "temp"
  | StravaStreams.MOVING => "moving"
  | StravaStreams.GRADE_SMOOTH => "grade_smooth"

/-- Member lookup by name, mirroring the Python subscript StravaStreams[name]
(which raises KeyError, here None, when the name is not a member). -/
def StravaStreams.fromName : String → Option StravaStreams
  | "ACTIVITY" => some StravaStreams.ACTIVITY
  | "ATHLETE_SUMMARY" => some StravaStreams.ATHLETE_SUMMARY
  | "TIME" => some StravaStreams.TIME
  | "DISTANCE" => some StravaStreams.DISTANCE
  | "LATLNG" => some StravaStreams.LATLNG
  | "ALTITUDE" => some StravaStreams.ALTITUDE
  | "VELOCITY_SMOOTH" => some StravaStreams.VELOCITY_SMOOTH
  | "HEARTRATE" => some StravaStreams.HEARTRATE
  | "CADENCE" => some StravaStreams.CADENCE
  | "WATTS" => some StravaStreams.WATTS
  | "TEMP" => some StravaStreams.TEMP
  | "MOVING" => some StravaStreams.MOVING
  | "GRADE_SMOOTH" => some StravaStreams.GRADE_SMOOTH
  | _ => none

/-- Single-quote character, used when assembling the SQL strings of the source. -/
def sglq : String := String.mk [Char.ofNat 39]

/-- Python str.lower over the ASCII strings appearing here. -/
def strLower (s : String) : String := String.mk (s.data.map Char.toLower)

/-- Python str.upper over the ASCII strings appearing here. -/
def strUpper (s : String) : String := String.mk (s.data.map Char.toUpper)

/-- One persisted row of the metrics table queried by create_activities_query. -/
structure MetricsRow where
  athlete_id : String
  activity_id : String
  data_source : String
  data_stream : String
  status : String
deriving DecidableEq

/-- The WHERE predicate of the SQL built by create_activities_query:
athlete_id = aid and data_source = ds.value and data_stream = stream.value and status = SUCCESS. -/
def activitiesWhere (aid : String) (ds : FitnessLLMDataSource) (stream : StravaStreams)
    (r : MetricsRow) : Bool :=
  r.athlete_id == aid && r.data_source == ds.value && r.data_stream == stream.value &&
    r.status == "SUCCESS"

/-- Semantics of running the SELECT DISTINCT activity_id query of create_activities_query
over a metrics table held as a row list (newest rows appended at the end). -/
def runActivitiesQuery (tbl : List MetricsRow) (aid : String) (ds : FitnessLLMDataSource)
    (stream : StravaStreams) : List String :=
  ((tbl.filter (activitiesWhere aid ds stream)).map MetricsRow.activity_id).dedup

/-- schema_name as built inside create_activities_query (queries.py). -/
def activitiesQuerySchemaName (env : String) (ds : FitnessLLMDataSource) : String :=
  env ++ "_bronze_" ++ strLower ds.value

/-- The table named in the FROM clause of create_activities_query (queries.py). -/
def activitiesQueryTable (env : String) (ds : FitnessLLMDataSource) : String :=
  activitiesQuerySchemaName env ds ++ ".metrics"

/-- create_activities_query from stream/strava/entities/queries.py: the exact query string
built by the Python f-string. -/
def create_activities_query (athlete_id env : String) (ds : FitnessLLMDataSource)
    (stream : StravaStreams) : String :=
  "\n        SELECT DISTINCT activity_id\n        FROM " ++ activitiesQueryTable env ds ++
    "\n        WHERE athlete_id = " ++ sglq ++ athlete_id ++ sglq ++ " and data_source = " ++ sglq ++
    ds.value ++ sglq ++ " and data_stream = " ++ sglq ++ stream.value ++ sglq ++ " and status = " ++
    sglq ++ "SUCCESS" ++ sglq ++ "\n    "

/-- Destination of the bronze data write in upsert_to_bigquery (bronze_etl_interface.py). -/
def bronzeDataDestination (project env : String) (ds : FitnessLLMDataSource)
    (stream : StravaStreams) : String :=
  project ++ "." ++ env ++ "_bronze_" ++ strLower ds.value ++ "." ++ stream.value

/-- Destination of the SUCCESS metrics write in upsert_to_bigquery (bronze_etl_interface.py). -/
def successMetricsDestination (project env : String) : String :=
  project ++ "." ++ env ++ "_metrics.metrics"

/-- Destination of the FAILURE metrics write in upsert_to_bigquery (bronze_etl_interface.py):
a hardcoded string literal. -/
def failureMetricsDestination : String := "dev_metrics.metrics"

/-- The shared metrics table named by the spec: the env-prefixed metrics.metrics table. -/
def specSharedMetricsTable (env : String) : String := env ++ "_metrics.metrics"

/-- Python str.split on a single-character separator, over the char list. -/
def splitOnChar (sep : Char) : List Char → List (List Char)
  | [] => [[]]
  | c :: rest =>
    if c = sep then [] :: splitOnChar sep rest
    else
      match splitOnChar sep rest with
      | [] => [[c]]
      | h :: tl => (c :: h) :: tl

/-- file.stem.split on the equals sign, index 1: the activity id encoded in a raw artifact
file stem of the form activity_id=NNN (bronze_etl_interface.py). -/
def fileActivityId (stem : String) : String :=
  String.mk ((splitOnChar '=' stem.data).getD 1 [])

/-- itertools.islice truncation of the candidate file list when SAMPLE is set
(convert_stream_json_to_dataframe). -/
def sampledFiles (files : List String) (sample : Option Nat) : List String :=
  match sample with
  | some n => files.take n
  | none => files

/-- filtered_module_strava_json_list of convert_stream_json_to_dataframe: keep only files whose
stem-encoded activity id is not among the already-loaded activity ids. -/
def filteredFiles (files : List String) (activity_ids : List String) : List String :=
  files.filter (fun f => !(activity_ids.contains (fileActivityId f)))

/-- System invariant on a metrics table: once a row satisfying p with status SUCCESS has been
appended, no later row satisfies p (an activity already loaded is never attempted again). -/
def noAttemptAfterSuccess (tbl : List MetricsRow) (p : MetricsRow → Bool) : Prop :=
  tbl.Pairwise (fun x y => p x = true → x.status = "SUCCESS" → p y = false)

/-- A Metrics row records a load attempt of activity a for the (athlete, source, stream)
triple, whatever its status. -/
def attemptFor (aid : String) (ds : FitnessLLMDataSource) (stream : StravaStreams)
    (a : String) (r : MetricsRow) : Bool :=
  r.athlete_id == aid && r.data_source == ds.value && r.data_stream == stream.value &&
    r.activity_id == a

/-- The stream-directory enumeration of load_json_into_bq: each stored directory name is looked
up as StravaStreams[name.upper()]; the first unknown name raises KeyError (here: error). -/
def streamsFromDirs : List String → Except String (List StravaStreams)
  | [] => Except.ok []
  | d :: ds =>
    match StravaStreams.fromName (strUpper d) with
    | none => Except.error d
    | some s =>
      match streamsFromDirs ds with
      | Except.error e => Except.error e
      | Except.ok rest => Except.ok (s :: rest)

/-- Stream selection of load_json_into_bq: enumerate stored stream directories, then, when the
caller-supplied data_streams list is truthy (non-None and non-empty), keep only streams whose
value is in that list. -/
def selectStreams (dirs : List String) (data_streams : Option (List String)) :
    Except String (List StravaStreams) :=
  match streamsFromDirs dirs with
  | Except.error e => Except.error e
  | Except.ok streams =>
    match data_streams with
    | none => Except.ok streams
    | some allow =>
      if allow.isEmpty then Except.ok streams
      else Except.ok (streams.filter (fun s => allow.contains s.value))

/-- Loading execution mode chosen by convert_stream_json_to_dataframe. -/
inductive ExecMode
  | sequential
  | parallel (n_jobs : Int)
deriving DecidableEq

/-- The worker-pool decision of convert_stream_json_to_dataframe: parallel when
int(WORKER default 1) is greater than 1 or WORKER is unset; n_jobs is int(WORKER) when WORKER
is set, else mp.cpu_count(); otherwise the files are loaded by a sequential comprehension. -/
def chooseExecutionMode (worker : Option Int) (cpuCount : Int) : ExecMode :=
  if decide (1 < worker.getD 1) || worker.isNone then
    ExecMode.parallel
      (match worker with
       | some w => w
       | none => cpuCount)
  else ExecMode.sequential

/-- JSON scalar or array value appearing inside a raw Strava artifact. -/
inductive JVal
  | null
  | str (s : String)
  | num (n : Int)
  | boolean (b : Bool)
  | arr (elems : List JVal)

/-- A pandas DataFrame, held column-oriented: column names in order, each with its values. -/
structure Frame where
  cols : List (String × List JVal)

/-- Column lookup by name (df[name]). -/
def Frame.getCol (f : Frame) (name : String) : Option (List JVal) :=
  (f.cols.find? (fun c => c.1 == name)).map (fun c => c.2)

/-- Number of rows (df.shape[0]): the length of the frame's columns, read off the first one. -/
def Frame.nRows (f : Frame) : Nat := ((f.cols.headD ("", [])).2).length

/-- Scalar column assignment df[name] = v: the scalar is broadcast over the rows; an existing
column of that name is replaced, otherwise the column is appended at the end. -/
def Frame.setColScalar (f : Frame) (name : String) (v : JVal) : Frame :=
  let col := List.replicate f.nRows v
  if (f.cols.find? (fun c => c.1 == name)).isSome then
    Frame.mk (f.cols.map (fun c => if c.1 == name then (name, col) else c))
  else Frame.mk (f.cols ++ [(name, col)])

/-- pd.concat of frames sharing one column layout: rows are stacked, aligned by column name. -/
def concatFrames : List Frame → Frame
  | [] => Frame.mk []
  | d :: ds =>
    let rest := concatFrames ds
    Frame.mk (d.cols.map (fun c => (c.1, c.2 ++ ((rest.getCol c.1).getD []))))

/-- process_other_json from bronze_etl_interface.py: a frame with the data samples (the empty
list when the data field is JSON null), a 1-based index column (np.arange(1, len + 1)), and the
broadcast original_size and series_type fields, in assignment order. -/
def process_other_json (data : Option (List JVal)) (original_size series_type : JVal) : Frame :=
  let samples := data.getD []
  let n := samples.length
  Frame.mk
    [("data", samples),
     ("index", (List.range n).map (fun i => JVal.num (Int.ofNat i + 1))),
     ("original_size", List.replicate n original_size),
     ("series_type", List.replicate n series_type)]

/-- Characters kept by the second regex of clean_column_names: ASCII letters, digits, underscore. -/
def isAllowedColChar (c : Char) : Bool := c.isAlpha || c.isDigit || c == '_'

/-- Default whitespace stripped by Python str.strip. -/
def isPyWhitespace (c : Char) : Bool :=
  c == ' ' || c == '\t' || c == '\n' || c == '\r' || c == Char.ofNat 11 || c == Char.ofNat 12

/-- First regex of clean_column_names: every dot becomes an underscore. -/
def dotToUnderscore (c : Char) : Char := if c == '.' then '_' else c

/-- clean_column_names applied to one column name (bronze_etl_interface.py): replace dots with
underscores, drop every character outside the letter/digit/underscore class, strip whitespace. -/
def cleanName (s : String) : String :=
  String.mk
    ((((s.data.map dotToUnderscore).filter isAllowedColChar).dropWhile
        isPyWhitespace).reverse.dropWhile isPyWhitespace).reverse

/-- clean_column_names from bronze_etl_interface.py, applied to a frame's column names. -/
def clean_column_names (df : Frame) : Frame :=
  Frame.mk (df.cols.map (fun c => (cleanName c.1, c.2)))

/-- First element of a two-element latlng pair. -/
def latOf : JVal → JVal
  | JVal.arr [a, _] => a
  | _ => JVal.null

/-- Second element of a two-element latlng pair. -/
def lngOf : JVal → JVal
  | JVal.arr [_, b] => b
  | _ => JVal.null

/-- Modelled from the spec: the latlng transform of the Stream Transform Library (splitting the
two-element coordinate pair column into two scalar columns), registered for the LATLNG stream.
The library module defining execute_etl_func is imported by bronze_etl_interface.py but absent
from the tree. -/
def splitLatLng (df : Frame) : Frame :=
  match df.getCol "data" with
  | none => df
  | some col => Frame.mk (df.cols ++ [("latitude", col.map latOf), ("longitude", col.map lngOf)])

/-- Modelled from the spec: execute_etl_func applies the transform functions registered for a
stream type in registration order; transforms are additive column derivations and a stream type
absent from the library is unaffected. The defining module is imported by
bronze_etl_interface.py but absent from the tree. -/
def execute_etl_func (stream : StravaStreams) (df : Frame) : Frame :=
  match stream with
  | StravaStreams.LATLNG => splitLatLng df
  | _ => df

/-- The Metrics dataclass from entities/dataclasses.py, with timestamps as abstract ticks. -/
structure Metrics where
  athlete_id : String
  activity_id : String
  data_source : FitnessLLMDataSource
  data_stream : StravaStreams
  record_count : Nat
  status : Option String := none
  bq_insert_timestamp : Option Nat := none
deriving DecidableEq

/-- Metrics.update(bq_insert_timestamp=timestamp, status=status) from entities/dataclasses.py. -/
def Metrics.update (m : Metrics) (timestamp : Nat) (status : String) : Metrics :=
  { m with bq_insert_timestamp := some timestamp, status := some status }

/-- The series branch of load_json_into_dataframe (bronze_etl_interface.py): for any stream
other than ACTIVITY and ATHLETE_SUMMARY, run process_other_json, assign the athlete_id and
activity_id identity columns, apply execute_etl_func, and build a Metrics record whose
record_count is df.shape[0]. -/
def load_json_into_dataframe_series (athlete_id fileStem : String)
    (data_stream : StravaStreams) (data : Option (List JVal))
    (original_size series_type : JVal) : Frame × Metrics :=
  let df0 := process_other_json data original_size series_type
  let df1 := df0.setColScalar "athlete_id" (JVal.str athlete_id)
  let df2 := df1.setColScalar "activity_id" (JVal.str (fileActivityId fileStem))
  let df := execute_etl_func data_stream df2
  (df,
   { athlete_id := athlete_id
     activity_id := fileActivityId fileStem
     data_source := FitnessLLMDataSource.STRAVA
     data_stream := data_stream
     record_count := df.nRows })

/-- The selection part of convert_stream_json_to_dataframe: truncate the stored file list when
SAMPLE is set, drop files whose activity id was already loaded, then (whether the worker pool is
parallel or the sequential comprehension runs) load each remaining file and split the results
into the dataframe and metrics lists. -/
def convert_stream_json_to_dataframe (activity_ids files : List String) (sample : Option Nat)
    (loadOne : String → Frame × Metrics) : List Frame × List Metrics :=
  let filtered := filteredFiles (sampledFiles files sample) activity_ids
  if filtered.isEmpty then ([], [])
  else ((filtered.map loadOne).map Prod.fst, (filtered.map loadOne).map Prod.snd)

/-- Outcome of one BigQuery load job, as observed by the caller: the client raised, or
job.result() returned carrying this state string. -/
inductive JobOutcome
  | exc
  | state (s : String)
deriving DecidableEq

/-- One warehouse write attempt issued through client.load_table_from_dataframe: either the
bronze data table write (with its row count) or a metrics table write (with the converted
metrics rows). -/
inductive BqWrite
  | loadTable (destination : String) (nRows : Nat)
  | loadMetricsTable (destination : String) (rows : List Metrics)
deriving DecidableEq

/-- insert_metrics from bronze_etl_interface.py: the metrics are first converted by
Metrics.update with the given timestamp and status value, a WRITE_APPEND load job of those rows
is attempted, and the call raises unless job.result() reports state DONE. Returns the write
attempts and whether the call raised. -/
def insert_metrics (metrics_list : List Metrics) (destination : String) (timestamp : Nat)
    (status : Status) (job : JobOutcome) : List BqWrite × Bool :=
  let rows := metrics_list.map (fun m => m.update timestamp status.value)
  match job with
  | JobOutcome.exc => ([BqWrite.loadMetricsTable destination rows], true)
  | JobOutcome.state s => ([BqWrite.loadMetricsTable destination rows], s != "DONE")

/-- upsert_to_bigquery from bronze_etl_interface.py. timestamp stands for the single
datetime.now() call made at the top. The dataframes are concatenated, the
metadata_insert_timestamp column is attached, and the WRITE_APPEND load of the bronze table is
attempted; when job.result() reports DONE the metrics are inserted with SUCCESS into the
env-prefixed metrics table and the method returns; on any exception in the try body (a client
error, a non-DONE job state, or the SUCCESS insert_metrics raising) the except handler inserts
the metrics with FAILURE into the hardcoded dev_metrics.metrics, re-raising only what that
insert itself raises. dataJob, succJob and failJob are the outcomes of the three possible load
jobs. Returns the write attempts in order and whether the method raised. -/
def upsert_to_bigquery (project env : String) (ds : FitnessLLMDataSource)
    (stream : StravaStreams) (dataframes : List Frame) (metrics : List Metrics)
    (timestamp : Nat) (dataJob succJob failJob : JobOutcome) : List BqWrite × Bool :=
  let df := (concatFrames dataframes).setColScalar "metadata_insert_timestamp"
    (JVal.num (Int.ofNat timestamp))
  let dataEv := BqWrite.loadTable (bronzeDataDestination project env ds stream) df.nRows
  let failurePath := insert_metrics metrics failureMetricsDestination timestamp
    Status.FAILURE failJob
  match dataJob with
  | JobOutcome.state s =>
    if s == "DONE" then
      let succ := insert_metrics metrics (successMetricsDestination project env) timestamp
        Status.SUCCESS succJob
      if succ.2 then (dataEv :: (succ.1 ++ failurePath.1), failurePath.2)
      else (dataEv :: succ.1, false)
    else (dataEv :: failurePath.1, failurePath.2)
  | JobOutcome.exc => (dataEv :: failurePath.1, failurePath.2)

/-- One stream type's inputs and job outcomes inside a load_json_into_bq run. -/
structure StreamRun where
  stream : StravaStreams
  dataframes : List Frame
  metrics : List Metrics
  timestamp : Nat
  dataJob : JobOutcome
  succJob : JobOutcome
  failJob : JobOutcome

/-- The per-stream body of the load_json_into_bq loop: when the dataframes and metrics lists
are both truthy, upsert_to_bigquery runs; otherwise only the No-new-data warning is logged. -/
def processStream (project env : String) (ds : FitnessLLMDataSource) (r : StreamRun) :
    List BqWrite × Bool :=
  if r.dataframes.isEmpty || r.metrics.isEmpty then ([], false)
  else
    upsert_to_bigquery project env ds r.stream r.dataframes r.metrics r.timestamp r.dataJob
      r.succJob r.failJob

/-- The stream loop of load_json_into_bq (bronze_etl_interface.py): streams are processed in
order; an exception escaping upsert_to_bigquery aborts the loop, otherwise the next stream is
processed. Returns the per-stream write attempts and whether the loop raised. -/
def load_json_into_bq (project env : String) (ds : FitnessLLMDataSource) :
    List StreamRun → List (StravaStreams × List BqWrite) × Bool
  | [] => ([], false)
  | r :: rest =>
    let res := processStream project env ds r
    if res.2 then ([(r.stream, res.1)], true)
    else
      let tail := load_json_into_bq project env ds rest
      ((r.stream, res.1) :: tail.1, tail.2)

/-- Node kinds of the sqlglot expression tree relevant to the silver templates. -/
inductive SqlKind
  | selectKind
  | insertKind
  | deleteKind
  | updateKind
  | otherKind
deriving DecidableEq

/-- A sqlglot expression node: its kind and child expressions. -/
inductive SqlExpr
  | node (kind : SqlKind) (children : List SqlExpr)

/-- Kind of the root node. -/
def SqlExpr.kind : SqlExpr → SqlKind
  | SqlExpr.node k _ => k

mutual
/-- parsed.find(exp.Select) of query_utils.py: does a Select node occur anywhere in the tree,
the root included. -/
def containsSelect : SqlExpr → Bool
  | SqlExpr.node k cs => (k == SqlKind.selectKind) || containsSelectList cs

/-- Helper of containsSelect over child lists. -/
def containsSelectList : List SqlExpr → Bool
  | [] => false
  | c :: cs => containsSelect c || containsSelectList cs
end

/-- The validation step of get_parameterized_query (query_utils.py): after Jinja rendering and
parse_one, raise ValueError when no Select expression is found anywhere in the parsed tree,
otherwise return the rendered SQL for execution. -/
def validate_parameterized_query (parsed : SqlExpr) : Except String SqlExpr :=
  if containsSelect parsed then Except.ok parsed
  else Except.error "Only SELECT queries allowed"

/-- The check the spec describes: the template body parses as a single SELECT statement, that
is, the root of the parsed statement is itself a Select node. -/
def isSingleSelectStatement (parsed : SqlExpr) : Bool := parsed.kind == SqlKind.selectKind

/-- get_delete_user_data_query from query_utils.py: the exact DELETE string. -/
def get_delete_user_data_query (target_table athlete_id : String) : String :=
  "DELETE FROM " ++ target_table ++ " WHERE athlete_id = " ++ sglq ++ athlete_id ++ sglq

/-- get_delete_query from query_utils.py: the user-data delete with a trailing semicolon. -/
def get_delete_query (target_table athlete_id : String) : String :=
  get_delete_user_data_query target_table athlete_id ++ ";"

/-- One row of a silver target table: its athlete_id and remaining fields. -/
structure TableRow where
  athlete_id : String
  payload : List (String × JVal)

/-- Semantics of executing the DELETE built by get_delete_user_data_query on a target table:
the rows WHERE athlete_id equals the parameter are removed, the rest are kept. -/
def runDeleteUserData (tbl : List TableRow) (athlete_id : String) : List TableRow :=
  tbl.filter (fun r => r.athlete_id != athlete_id)

/-- The parameters dict built by SilverStravaETLInterface.task_handler: exactly a schema entry
(the env-prefixed bronze schema) and an athlete_id entry. -/
def silver_parameters (env : String) (ds : FitnessLLMDataSource) (athlete_id : String) :
    List (String × String) :=
  [("schema", env ++ "_bronze_" ++ strLower ds.value), ("athlete_id", athlete_id)]

/-- C2: the claim says the selector's SUCCESS query and every persisted Metrics row use the one
shared env-prefixed metrics.metrics table. Evaluating the code at env prd, project proj: the
selector's FROM table is prd_bronze_strava.metrics, SUCCESS rows go to proj.prd_metrics.metrics,
and FAILURE rows go to the hardcoded dev_metrics.metrics — the selector never reads the table
the engine writes, and FAILURE rows land outside the env-prefixed table. -/
theorem c2_metrics_table_divergence :
    activitiesQueryTable "prd" FitnessLLMDataSource.STRAVA = "prd_bronze_strava.metrics" ∧
    specSharedMetricsTable "prd" = "prd_metrics.metrics" ∧
    successMetricsDestination "proj" "prd" = "proj." ++ specSharedMetricsTable "prd" ∧
    failureMetricsDestination = "dev_metrics.metrics" ∧
    activitiesQueryTable "prd" FitnessLLMDataSource.STRAVA ≠ specSharedMetricsTable "prd" ∧
    failureMetricsDestination ≠ specSharedMetricsTable "prd" := by
  refine ⟨rfl, rfl, rfl, rfl, ?_, ?_⟩ <;> decide

/-- C5 counterexample: the athlete has stored only heartrate, the caller requests only cadence;
the claim says this surfaces as a fatal configuration error, but stream selection returns the
empty list without error — the never-stored request is silently dropped. -/
theorem c5_counterexample :
    selectStreams ["heartrate"] (some ["cadence"]) = Except.ok [] := by rfl

/-- A stored directory whose uppercased name is not a StravaStreams member makes the stream
enumeration raise KeyError. -/
theorem streamsFromDirs_error_of_unknown (dirs : List String) (d : String)
    (hd : d ∈ dirs) (hn : StravaStreams.fromName (strUpper d) = none) :
    ∃ e, streamsFromDirs dirs = Except.error e := by
  induction dirs with
  | nil => cases hd
  | cons d0 ds ih =>
    cases hd with
    | head => exact ⟨d, by simp [streamsFromDirs, hn]⟩
    | tail _ hmem =>
      cases hfn : StravaStreams.fromName (strUpper d0) with
      | none => exact ⟨d0, by simp [streamsFromDirs, hfn]⟩
      | some s0 =>
        obtain ⟨e, he⟩ := ih hmem
        exact ⟨e, by simp [streamsFromDirs, hfn, he]⟩

/-- C5 amended: a requested stream type that was never stored is silently dropped by the
allow-list intersection — only stream types both stored and in the allow-list are processed and
no error is raised for an unmatched request; what is fatal is a stored stream-type directory
whose name is not a known stream type. -/
theorem c5_amended_allowlist :
    (∀ dirs allow sel, streamsFromDirs dirs = Except.ok sel → allow ≠ [] →
      selectStreams dirs (some allow) =
        Except.ok (sel.filter (fun s => allow.contains s.value)) ∧
      ∀ s ∈ sel.filter (fun s => allow.contains s.value),
        allow.contains s.value = true ∧ s ∈ sel) ∧
    (∀ dirs d, d ∈ dirs → StravaStreams.fromName (strUpper d) = none →
      ∀ o, ∃ e, selectStreams dirs o = Except.error e) := by
  constructor
  · intro dirs allow sel hok hne
    have hempty : allow.isEmpty = false := by
      cases allow with
      | nil => exact absurd rfl hne
      | cons a as => rfl
    refine ⟨by simp [selectStreams, hok, hempty], ?_⟩
    intro s hs
    exact ⟨(List.mem_filter.mp hs).2, (List.mem_filter.mp hs).1⟩
  · intro dirs d hd hn o
    obtain ⟨e, he⟩ := streamsFromDirs_error_of_unknown dirs d hd hn
    exact ⟨e, by simp [selectStreams, he]⟩

/-- C5 amended witness: with heartrate and cadence stored and cadence allow-listed, exactly
cadence is selected; a stored directory named mystery makes the enumeration fail. -/
theorem c5_amended_witness :
    selectStreams ["heartrate", "cadence"] (some ["cadence"]) =
      Except.ok [StravaStreams.CADENCE] ∧
    ∃ e, selectStreams ["mystery"] none = Except.error e := by
  constructor
  · have h := (c5_amended_allowlist.1 ["heartrate", "cadence"] ["cadence"]
      [StravaStreams.HEARTRATE, StravaStreams.CADENCE] (by rfl) (by decide)).1
    rw [h]
    rfl
  · exact c5_amended_allowlist.2 ["mystery"] "mystery" (by simp) (by rfl) none

/-- C6 counterexample: with the WORKER environment value unset and eight CPUs, the loading mode
is a parallel pool of cpu_count workers, not the sequential single worker the claim states. -/
theorem c6_counterexample :
    chooseExecutionMode none 8 = ExecMode.parallel 8 ∧
    chooseExecutionMode none 8 ≠ ExecMode.sequential := by
  exact ⟨rfl, by decide⟩

/-- C6 amended: when WORKER is unset, loading fans out across a pool of mp.cpu_count() workers;
a set worker count greater than one uses a pool of that many workers; a set worker count of one
or less runs sequentially. -/
theorem c6_amended_worker_modes :
    (∀ c : Int, chooseExecutionMode none c = ExecMode.parallel c) ∧
    (∀ w c : Int, 1 < w → chooseExecutionMode (some w) c = ExecMode.parallel w) ∧
    (∀ w c : Int, w ≤ 1 → chooseExecutionMode (some w) c = ExecMode.sequential) := by
  refine ⟨fun c => rfl, fun w c hw => ?_, fun w c hw => ?_⟩
  · simp [chooseExecutionMode, hw]
  · have hnot : ¬(1 < w) := not_lt.mpr hw
    simp [chooseExecutionMode, hnot]

/-- C6 amended witness: WORKER set to four gives a four-worker pool; WORKER set to one is
sequential. -/
theorem c6_amended_witness :
    chooseExecutionMode (some 4) 8 = ExecMode.parallel 4 ∧
    chooseExecutionMode (some 1) 8 = ExecMode.sequential :=
  ⟨c6_amended_worker_modes.2.1 4 8 (by decide), c6_amended_worker_modes.2.2 1 8 (by decide)⟩

/-- C8 counterexample: a DELETE statement embedding a SELECT subquery is not a single SELECT
statement, yet the validation of get_parameterized_query accepts it for execution — the check
only requires a Select node somewhere in the parsed tree. -/
theorem c8_counterexample :
    validate_parameterized_query
        (SqlExpr.node SqlKind.deleteKind [SqlExpr.node SqlKind.selectKind []]) =
      Except.ok (SqlExpr.node SqlKind.deleteKind [SqlExpr.node SqlKind.selectKind []]) ∧
    isSingleSelectStatement
        (SqlExpr.node SqlKind.deleteKind [SqlExpr.node SqlKind.selectKind []]) = false :=
  ⟨rfl, rfl⟩

/-- C8 amended: the engine checks before execution that the rendered body parses and contains a
Select expression somewhere in its tree, raising exactly when none is present (so a single
SELECT passes, but so does a non-SELECT statement embedding a SELECT subquery); both steps are
parameterized only with schema and athlete_id, and the delete removes only the current
athlete's rows from the target table. -/
theorem c8_amended_validation (parsed : SqlExpr) (tbl : List TableRow)
    (env aidStr : String) (ds : FitnessLLMDataSource) :
    (containsSelect parsed = false →
      validate_parameterized_query parsed = Except.error "Only SELECT queries allowed") ∧
    (isSingleSelectStatement parsed = true →
      validate_parameterized_query parsed = Except.ok parsed) ∧
    (∀ r ∈ tbl, r ∉ runDeleteUserData tbl aidStr → r.athlete_id = aidStr) ∧
    (∀ r ∈ tbl, r.athlete_id ≠ aidStr → r ∈ runDeleteUserData tbl aidStr) ∧
    (silver_parameters env ds aidStr).map Prod.fst = ["schema", "athlete_id"] := by
  refine ⟨?_, ?_, ?_, ?_, rfl⟩
  · intro h
    simp [validate_parameterized_query, h]
  · intro h
    have hc : containsSelect parsed = true := by
      cases parsed with
      | node k cs =>
        simp [isSingleSelectStatement, SqlExpr.kind] at h
        simp [containsSelect, h]
    simp [validate_parameterized_query, hc]
  · intro r hr hnot
    by_contra hne
    exact hnot (List.mem_filter.mpr ⟨hr, by simp [hne]⟩)
  · intro r hr hne
    exact List.mem_filter.mpr ⟨hr, by simp [hne]⟩

/-- C8 amended witness: a bare SELECT passes validation, a tree with no SELECT is rejected, and
deleting athlete 42's rows keeps the row of athlete 7 while removing only rows of athlete 42. -/
theorem c8_amended_witness :
    validate_parameterized_query (SqlExpr.node SqlKind.selectKind []) =
      Except.ok (SqlExpr.node SqlKind.selectKind []) ∧
    validate_parameterized_query (SqlExpr.node SqlKind.deleteKind []) =
      Except.error "Only SELECT queries allowed" ∧
    TableRow.mk "7" [] ∈ runDeleteUserData [TableRow.mk "42" [], TableRow.mk "7" []] "42" := by
  refine ⟨?_, ?_, ?_⟩
  · exact (c8_amended_validation (SqlExpr.node SqlKind.selectKind []) [] "dev" "42"
      FitnessLLMDataSource.STRAVA).2.1 rfl
  · exact (c8_amended_validation (SqlExpr.node SqlKind.deleteKind []) [] "dev" "42"
      FitnessLLMDataSource.STRAVA).1 rfl
  · exact (c8_amended_validation (SqlExpr.node SqlKind.selectKind [])
      [TableRow.mk "42" [], TableRow.mk "7" []] "dev" "42"
      FitnessLLMDataSource.STRAVA).2.2.2.1 (TableRow.mk "7" []) (by simp) (by simp)

/-- Characters surviving cleanName all lie in the letter/digit/underscore class: stripping only
ever removes characters, and the filter step keeps exactly that class. -/
theorem cleanName_chars (s : String) (c : Char) (hc : c ∈ (cleanName s).data) :
    isAllowedColChar c = true := by
  have h1 : c ∈ ((((s.data.map dotToUnderscore).filter isAllowedColChar).dropWhile
      isPyWhitespace).reverse.dropWhile isPyWhitespace).reverse := hc
  rw [List.mem_reverse] at h1
  have h2 := (List.dropWhile_sublist _).subset h1
  rw [List.mem_reverse] at h2
  have h3 := (List.dropWhile_sublist _).subset h2
  exact (List.mem_filter.mp h3).2

/-- C9: every column name produced by clean_column_names contains only ASCII letters, digits
and underscores — dots were turned into underscores, every other disallowed character removed,
and surrounding whitespace stripped. -/
theorem c9_clean_column_names_charset (df : Frame) :
    ∀ p ∈ (clean_column_names df).cols, ∀ c ∈ p.1.data,
      c.isAlpha = true ∨ c.isDigit = true ∨ c = '_' := by
  intro p hp c hc
  simp only [clean_column_names, List.mem_map] at hp
  obtain ⟨q, _, rfl⟩ := hp
  have h := cleanName_chars q.1 c hc
  simp only [isAllowedColChar, Bool.or_eq_true, beq_iff_eq] at h
  tauto

/-- C9 witness: cleaning the column name with a dot, a space and a bang in it yields a_bc, and
its first character is in the allowed class. -/
theorem c9_witness : 'a'.isAlpha = true ∨ 'a'.isDigit = true ∨ 'a' = '_' :=
  c9_clean_column_names_charset (Frame.mk [("a.b c!", [])]) ("a_bc", [])
    (List.mem_singleton.mpr rfl) 'a' (List.Mem.head _)

/-- C10: for a series artifact whose data field is JSON null, the series loader does not raise
(the None guard of process_other_json substitutes the empty sample list): it returns a zero-row
frame still carrying the data, index, original_size, series_type, athlete_id and activity_id
columns, and a Metrics record whose record_count is zero. -/
theorem c10_null_data_zero_rows (stream : StravaStreams) (aid stem : String) (os st : JVal) :
    (load_json_into_dataframe_series aid stem stream none os st).1.nRows = 0 ∧
    (load_json_into_dataframe_series aid stem stream none os st).1.getCol "data" = some [] ∧
    (load_json_into_dataframe_series aid stem stream none os st).1.getCol "index" = some [] ∧
    (load_json_into_dataframe_series aid stem stream none os st).1.getCol "original_size" =
      some [] ∧
    (load_json_into_dataframe_series aid stem stream none os st).1.getCol "series_type" =
      some [] ∧
    (load_json_into_dataframe_series aid stem stream none os st).1.getCol "athlete_id" =
      some [] ∧
    (load_json_into_dataframe_series aid stem stream none os st).1.getCol "activity_id" =
      some [] ∧
    (load_json_into_dataframe_series aid stem stream none os st).2.record_count = 0 := by
  cases stream <;> exact ⟨rfl, rfl, rfl, rfl, rfl, rfl, rfl, rfl⟩

/-- C7: for every series-class stream (neither the activity nor the athlete summary), the
series loader returns one row per sample of the data array, the index column running 1-based
over the samples, the original_size and series_type fields broadcast to every row, the
athlete_id and activity_id identity columns attached, and a Metrics record whose record_count
equals the number of rows returned. -/
theorem c7_series_loader (stream : StravaStreams)
    (h1 : stream ≠ StravaStreams.ACTIVITY) (h2 : stream ≠ StravaStreams.ATHLETE_SUMMARY)
    (aid stem : String) (samples : List JVal) (os st : JVal) :
    (load_json_into_dataframe_series aid stem stream (some samples) os st).1.nRows =
      samples.length ∧
    (load_json_into_dataframe_series aid stem stream (some samples) os st).1.getCol "index" =
      some ((List.range samples.length).map (fun i => JVal.num (Int.ofNat i + 1))) ∧
    (load_json_into_dataframe_series aid stem stream (some samples) os st).1.getCol
        "original_size" = some (List.replicate samples.length os) ∧
    (load_json_into_dataframe_series aid stem stream (some samples) os st).1.getCol
        "series_type" = some (List.replicate samples.length st) ∧
    (load_json_into_dataframe_series aid stem stream (some samples) os st).1.getCol
        "athlete_id" = some (List.replicate samples.length (JVal.str aid)) ∧
    (load_json_into_dataframe_series aid stem stream (some samples) os st).1.getCol
        "activity_id" = some (List.replicate samples.length (JVal.str (fileActivityId stem))) ∧
    (load_json_into_dataframe_series aid stem stream (some samples) os st).2.record_count =
      (load_json_into_dataframe_series aid stem stream (some samples) os st).1.nRows := by
  cases stream <;> exact ⟨rfl, rfl, rfl, rfl, rfl, rfl, rfl⟩

/-- C7 witness: a heartrate artifact with two samples yields a two-row frame whose metrics
record_count equals the row count. -/
theorem c7_witness :
    (load_json_into_dataframe_series "42" "activity_id=7" StravaStreams.HEARTRATE
        (some [JVal.num 101, JVal.num 102]) (JVal.num 2) (JVal.str "distance")).1.nRows = 2 ∧
    (load_json_into_dataframe_series "42" "activity_id=7" StravaStreams.HEARTRATE
        (some [JVal.num 101, JVal.num 102]) (JVal.num 2) (JVal.str "distance")).2.record_count =
      (load_json_into_dataframe_series "42" "activity_id=7" StravaStreams.HEARTRATE
        (some [JVal.num 101, JVal.num 102]) (JVal.num 2) (JVal.str "distance")).1.nRows :=
  ⟨(c7_series_loader StravaStreams.HEARTRATE (by decide) (by decide) "42" "activity_id=7"
      [JVal.num 101, JVal.num 102] (JVal.num 2) (JVal.str "distance")).1,
   (c7_series_loader StravaStreams.HEARTRATE (by decide) (by decide) "42" "activity_id=7"
      [JVal.num 101, JVal.num 102] (JVal.num 2) (JVal.str "distance")).2.2.2.2.2.2⟩

/-- C1: the selector returns exactly the activity ids having a SUCCESS Metrics row for the
(athlete, data source, stream) triple; the bronze run keeps exactly the candidate files whose
activity id is not in that set; and under the system invariant that no attempt follows a
SUCCESS row, an activity whose most recent load attempt is a FAILURE row is not in the set and
its file is kept for retry. -/
theorem c1_dedup_selector (tbl : List MetricsRow) (aid : String)
    (ds : FitnessLLMDataSource) (stream : StravaStreams) (files : List String)
    (sample : Option Nat) :
    (∀ a, a ∈ runActivitiesQuery tbl aid ds stream ↔
      ∃ r ∈ tbl, r.athlete_id = aid ∧ r.data_source = ds.value ∧
        r.data_stream = stream.value ∧ r.status = "SUCCESS" ∧ r.activity_id = a) ∧
    (∀ f, f ∈ filteredFiles (sampledFiles files sample) (runActivitiesQuery tbl aid ds stream) ↔
      f ∈ sampledFiles files sample ∧
        fileActivityId f ∉ runActivitiesQuery tbl aid ds stream) ∧
    (∀ a r, noAttemptAfterSuccess tbl (attemptFor aid ds stream a) →
      (tbl.filter (attemptFor aid ds stream a)).getLast? = some r →
      r.status = "FAILURE" →
      a ∉ runActivitiesQuery tbl aid ds stream ∧
      ∀ f ∈ sampledFiles files sample, fileActivityId f = a →
        f ∈ filteredFiles (sampledFiles files sample) (runActivitiesQuery tbl aid ds stream)) := by
  have hq : ∀ a, a ∈ runActivitiesQuery tbl aid ds stream ↔
      ∃ r ∈ tbl, r.athlete_id = aid ∧ r.data_source = ds.value ∧
        r.data_stream = stream.value ∧ r.status = "SUCCESS" ∧ r.activity_id = a := by
    intro a
    constructor
    · intro h
      rw [runActivitiesQuery, List.mem_dedup] at h
      obtain ⟨r, hr, hra⟩ := List.mem_map.mp h
      obtain ⟨hrt, hw⟩ := List.mem_filter.mp hr
      simp only [activitiesWhere, Bool.and_eq_true, beq_iff_eq] at hw
      exact ⟨r, hrt, hw.1.1.1, hw.1.1.2, hw.1.2, hw.2, hra⟩
    · rintro ⟨r, hrt, h1, h2, h3, h4, h5⟩
      rw [runActivitiesQuery, List.mem_dedup]
      refine List.mem_map.mpr ⟨r, List.mem_filter.mpr ⟨hrt, ?_⟩, h5⟩
      simp only [activitiesWhere, Bool.and_eq_true, beq_iff_eq]
      exact ⟨⟨⟨h1, h2⟩, h3⟩, h4⟩
  have hff : ∀ ids f, f ∈ filteredFiles (sampledFiles files sample) ids ↔
      f ∈ sampledFiles files sample ∧ fileActivityId f ∉ ids := by
    intro ids f
    rw [filteredFiles, List.mem_filter]
    constructor
    · rintro ⟨hmem, hb⟩
      refine ⟨hmem, fun hin => ?_⟩
      rw [Bool.not_eq_true', ← Bool.not_eq_true] at hb
      exact hb (List.elem_iff.mpr hin)
    · rintro ⟨hmem, hnin⟩
      refine ⟨hmem, ?_⟩
      rw [Bool.not_eq_true']
      rw [← Bool.not_eq_true]
      intro hcon
      exact hnin (List.elem_iff.mp hcon)
  refine ⟨hq, hff _, ?_⟩
  intro a r hinv hlast hstatus
  have hnotin : a ∉ runActivitiesQuery tbl aid ds stream := by
    intro hin
    obtain ⟨r', hrt, h1, h2, h3, h4, h5⟩ := (hq a).mp hin
    have hp : attemptFor aid ds stream a r' = true := by
      simp only [attemptFor, Bool.and_eq_true, beq_iff_eq]
      exact ⟨⟨⟨h1, h2⟩, h3⟩, h5⟩
    obtain ⟨s, t, hst⟩ := List.append_of_mem hrt
    rw [hst] at hinv hlast
    rw [noAttemptAfterSuccess, List.pairwise_append] at hinv
    have hafter : ∀ y ∈ t, attemptFor aid ds stream a y = false := by
      intro y hy
      exact (List.pairwise_cons.mp hinv.2.1).1 y hy hp h4
    have htfil : List.filter (attemptFor aid ds stream a) t = [] :=
      List.filter_eq_nil_iff.mpr (by intro x hx; simp [hafter x hx])
    rw [List.filter_append, List.filter_cons_of_pos hp, htfil, List.getLast?_concat] at hlast
    have hrr : r' = r := Option.some.inj hlast
    rw [← hrr, h4] at hstatus
    exact absurd hstatus (by decide)
  refine ⟨hnotin, ?_⟩
  intro f hfmem hfid
  exact (hff _ f).mpr ⟨hfmem, by rw [hfid]; exact hnotin⟩

/-- C1 witness: with activity 1 loaded with SUCCESS and activity 2 having a single FAILURE
attempt, activity 2 is not in the processed set and its file is kept for retry. -/
theorem c1_witness :
    "2" ∉ runActivitiesQuery
      [MetricsRow.mk "42" "1" "STRAVA" "heartrate" "SUCCESS",
       MetricsRow.mk "42" "2" "STRAVA" "heartrate" "FAILURE"]
      "42" FitnessLLMDataSource.STRAVA StravaStreams.HEARTRATE ∧
    "activity_id=2" ∈ filteredFiles
      (sampledFiles ["activity_id=1", "activity_id=2"] none)
      (runActivitiesQuery
        [MetricsRow.mk "42" "1" "STRAVA" "heartrate" "SUCCESS",
         MetricsRow.mk "42" "2" "STRAVA" "heartrate" "FAILURE"]
        "42" FitnessLLMDataSource.STRAVA StravaStreams.HEARTRATE) := by
  have h := (c1_dedup_selector
    [MetricsRow.mk "42" "1" "STRAVA" "heartrate" "SUCCESS",
     MetricsRow.mk "42" "2" "STRAVA" "heartrate" "FAILURE"]
    "42" FitnessLLMDataSource.STRAVA StravaStreams.HEARTRATE
    ["activity_id=1", "activity_id=2"] none).2.2 "2"
    (MetricsRow.mk "42" "2" "STRAVA" "heartrate" "FAILURE")
    (by rw [noAttemptAfterSuccess]; decide) (by rfl) (by rfl)
  exact ⟨h.1, h.2 "activity_id=2" (by decide) rfl⟩

/-- Trace and outcome of upsert_to_bigquery when the data load job reports DONE and the SUCCESS
metrics insert job reports DONE: one data write, then one SUCCESS metrics write, no exception. -/
theorem upsert_success_trace (project env : String) (ds : FitnessLLMDataSource)
    (stream : StravaStreams) (dataframes : List Frame) (metricsL : List Metrics)
    (timestamp : Nat) (succJob failJob : JobOutcome)
    (hsucc : succJob = JobOutcome.state "DONE") :
    upsert_to_bigquery project env ds stream dataframes metricsL timestamp
      (JobOutcome.state "DONE") succJob failJob =
      ([BqWrite.loadTable (bronzeDataDestination project env ds stream)
          ((concatFrames dataframes).setColScalar "metadata_insert_timestamp"
            (JVal.num (Int.ofNat timestamp))).nRows,
        BqWrite.loadMetricsTable (successMetricsDestination project env)
          (metricsL.map (fun m => m.update timestamp Status.SUCCESS.value))], false) := by
  subst hsucc
  rfl

/-- Trace and outcome of upsert_to_bigquery when the data load job raised or reported a
non-DONE state while the FAILURE metrics insert job reports DONE: one data write attempt, then
one FAILURE metrics write to the hardcoded dev_metrics.metrics, no exception. -/
theorem upsert_failure_trace (project env : String) (ds : FitnessLLMDataSource)
    (stream : StravaStreams) (dataframes : List Frame) (metricsL : List Metrics)
    (timestamp : Nat) (dataJob succJob failJob : JobOutcome)
    (hdata : dataJob ≠ JobOutcome.state "DONE") (hfail : failJob = JobOutcome.state "DONE") :
    upsert_to_bigquery project env ds stream dataframes metricsL timestamp dataJob succJob
      failJob =
      ([BqWrite.loadTable (bronzeDataDestination project env ds stream)
          ((concatFrames dataframes).setColScalar "metadata_insert_timestamp"
            (JVal.num (Int.ofNat timestamp))).nRows,
        BqWrite.loadMetricsTable failureMetricsDestination
          (metricsL.map (fun m => m.update timestamp Status.FAILURE.value))], false) := by
  subst hfail
  cases dataJob with
  | exc => rfl
  | state s =>
    have hs : (s == "DONE") = false :=
      beq_false_of_ne (fun h => hdata (by rw [h]))
    simp [upsert_to_bigquery, insert_metrics, hs]

/-- C3: within one stream-type run, the two possible metrics writes both come strictly after
the data load job has been observed in a terminal way (the trace is the data write followed by
exactly one metrics write), exactly one converted Metrics row is persisted per in-memory
Metrics record (one per attempted RawArtifact, as the convert step builds one record per
filtered file), and every persisted row carries a status and the single commit timestamp taken
once per stream-type commit. Stated under the assumption that the metrics insert job used by
the taken branch reports DONE. -/
theorem c3_metrics_after_terminal (project env : String) (ds : FitnessLLMDataSource)
    (stream : StravaStreams) (dataframes : List Frame) (metricsL : List Metrics)
    (timestamp : Nat) (dataJob succJob failJob : JobOutcome)
    (hsucc : dataJob = JobOutcome.state "DONE" → succJob = JobOutcome.state "DONE")
    (hfail : dataJob ≠ JobOutcome.state "DONE" → failJob = JobOutcome.state "DONE") :
    (∀ ids fs sample loadOne,
      ((convert_stream_json_to_dataframe ids fs sample loadOne).2).length =
        (filteredFiles (sampledFiles fs sample) ids).length) ∧
    (upsert_to_bigquery project env ds stream dataframes metricsL timestamp dataJob succJob
        failJob).1 =
      [BqWrite.loadTable (bronzeDataDestination project env ds stream)
          ((concatFrames dataframes).setColScalar "metadata_insert_timestamp"
            (JVal.num (Int.ofNat timestamp))).nRows,
       BqWrite.loadMetricsTable
          (if dataJob = JobOutcome.state "DONE" then successMetricsDestination project env
           else failureMetricsDestination)
          (metricsL.map (fun m => m.update timestamp
            (if dataJob = JobOutcome.state "DONE" then Status.SUCCESS.value
             else Status.FAILURE.value)))] ∧
    (upsert_to_bigquery project env ds stream dataframes metricsL timestamp dataJob succJob
        failJob).2 = false ∧
    (metricsL.map (fun m => m.update timestamp
        (if dataJob = JobOutcome.state "DONE" then Status.SUCCESS.value
         else Status.FAILURE.value))).length = metricsL.length ∧
    ∀ m ∈ metricsL.map (fun m => m.update timestamp
        (if dataJob = JobOutcome.state "DONE" then Status.SUCCESS.value
         else Status.FAILURE.value)),
      m.bq_insert_timestamp = some timestamp ∧
        m.status = some (if dataJob = JobOutcome.state "DONE" then Status.SUCCESS.value
          else Status.FAILURE.value) := by
  have hconv : ∀ (ids fs : List String) (sample : Option Nat)
      (loadOne : String → Frame × Metrics),
      ((convert_stream_json_to_dataframe ids fs sample loadOne).2).length =
        (filteredFiles (sampledFiles fs sample) ids).length := by
    intro ids fs sample loadOne
    by_cases h : (filteredFiles (sampledFiles fs sample) ids).isEmpty
    · rw [List.isEmpty_iff] at h
      simp [convert_stream_json_to_dataframe, h]
    · rw [Bool.not_eq_true, List.isEmpty_eq_false] at h
      simp [convert_stream_json_to_dataframe, h]
  by_cases hd : dataJob = JobOutcome.state "DONE"
  · subst hd
    have h := upsert_success_trace project env ds stream dataframes metricsL timestamp
      succJob failJob (hsucc rfl)
    refine ⟨hconv, ?_, ?_, List.length_map _ _, ?_⟩
    · rw [h]
      simp
    · rw [h]
    · intro m hm
      simp only [if_pos rfl, List.mem_map] at hm
      obtain ⟨m0, _, rfl⟩ := hm
      exact ⟨rfl, rfl⟩
  · have h := upsert_failure_trace project env ds stream dataframes metricsL timestamp
      dataJob succJob failJob hd (hfail hd)
    refine ⟨hconv, ?_, ?_, List.length_map _ _, ?_⟩
    · rw [h]
      simp [if_neg hd]
    · rw [h]
    · intro m hm
      simp only [if_neg hd, List.mem_map] at hm
      obtain ⟨m0, _, rfl⟩ := hm
      rw [if_neg hd]
      exact ⟨rfl, rfl⟩

/-- C3 witness: a successful run over one artifact writes the data table first and then exactly
one SUCCESS metrics row carrying the single commit timestamp. -/
theorem c3_witness :
    (upsert_to_bigquery "p" "dev" FitnessLLMDataSource.STRAVA StravaStreams.HEARTRATE
        [Frame.mk [("data", [JVal.num 9])]]
        [Metrics.mk "42" "7" FitnessLLMDataSource.STRAVA StravaStreams.HEARTRATE 1 none none]
        5 (JobOutcome.state "DONE") (JobOutcome.state "DONE") JobOutcome.exc).2 = false ∧
    (upsert_to_bigquery "p" "dev" FitnessLLMDataSource.STRAVA StravaStreams.HEARTRATE
        [Frame.mk [("data", [JVal.num 9])]]
        [Metrics.mk "42" "7" FitnessLLMDataSource.STRAVA StravaStreams.HEARTRATE 1 none none]
        5 (JobOutcome.state "DONE") (JobOutcome.state "DONE") JobOutcome.exc).1 =
      [BqWrite.loadTable "p.dev_bronze_strava.heartrate" 1,
       BqWrite.loadMetricsTable "p.dev_metrics.metrics"
        [Metrics.mk "42" "7" FitnessLLMDataSource.STRAVA StravaStreams.HEARTRATE 1
          (some "SUCCESS") (some 5)]] := by
  have h := c3_metrics_after_terminal "p" "dev" FitnessLLMDataSource.STRAVA
    StravaStreams.HEARTRATE [Frame.mk [("data", [JVal.num 9])]]
    [Metrics.mk "42" "7" FitnessLLMDataSource.STRAVA StravaStreams.HEARTRATE 1 none none]
    5 (JobOutcome.state "DONE") (JobOutcome.state "DONE") JobOutcome.exc
    (fun _ => rfl) (fun hne => absurd rfl hne)
  exact ⟨h.2.2.1, h.2.1.trans (by rfl)⟩

/-- C4: when the data load job raises or reports a non-terminal state while the FAILURE metrics
insert succeeds, upsert_to_bigquery persists one FAILURE metrics row per attempted file and
returns without raising, and the load_json_into_bq loop proceeds to the remaining stream
types. -/
theorem c4_stream_failure_isolated (project env : String) (ds : FitnessLLMDataSource)
    (r : StreamRun) (rest : List StreamRun)
    (hdf : r.dataframes ≠ []) (hm : r.metrics ≠ [])
    (hdata : r.dataJob ≠ JobOutcome.state "DONE")
    (hfail : r.failJob = JobOutcome.state "DONE") :
    (upsert_to_bigquery project env ds r.stream r.dataframes r.metrics r.timestamp r.dataJob
        r.succJob r.failJob).2 = false ∧
    (upsert_to_bigquery project env ds r.stream r.dataframes r.metrics r.timestamp r.dataJob
        r.succJob r.failJob).1 =
      [BqWrite.loadTable (bronzeDataDestination project env ds r.stream)
          ((concatFrames r.dataframes).setColScalar "metadata_insert_timestamp"
            (JVal.num (Int.ofNat r.timestamp))).nRows,
       BqWrite.loadMetricsTable failureMetricsDestination
          (r.metrics.map (fun m => m.update r.timestamp Status.FAILURE.value))] ∧
    (r.metrics.map (fun m => m.update r.timestamp Status.FAILURE.value)).length =
      r.metrics.length ∧
    (∀ m ∈ r.metrics.map (fun m => m.update r.timestamp Status.FAILURE.value),
      m.status = some "FAILURE") ∧
    (load_json_into_bq project env ds (r :: rest)).1 =
      (r.stream,
        (upsert_to_bigquery project env ds r.stream r.dataframes r.metrics r.timestamp
          r.dataJob r.succJob r.failJob).1) :: (load_json_into_bq project env ds rest).1 ∧
    (load_json_into_bq project env ds (r :: rest)).2 =
      (load_json_into_bq project env ds rest).2 := by
  have h := upsert_failure_trace project env ds r.stream r.dataframes r.metrics r.timestamp
    r.dataJob r.succJob r.failJob hdata hfail
  have hde : r.dataframes.isEmpty = false := List.isEmpty_eq_false.mpr hdf
  have hme : r.metrics.isEmpty = false := List.isEmpty_eq_false.mpr hm
  have hps : processStream project env ds r =
      upsert_to_bigquery project env ds r.stream r.dataframes r.metrics r.timestamp r.dataJob
        r.succJob r.failJob := by
    rw [processStream, hde, hme]
    rfl
  refine ⟨by rw [h], by rw [h], List.length_map _ _, ?_, ?_, ?_⟩
  · intro m hm'
    obtain ⟨m0, _, rfl⟩ := List.mem_map.mp hm'
    rfl
  · rw [load_json_into_bq, hps, h]
    rfl
  · rw [load_json_into_bq, hps, h]
    rfl

/-- C4 witness: a one-stream run whose data write raises still finishes without raising, having
attempted the FAILURE metrics write. -/
theorem c4_witness :
    (upsert_to_bigquery "p" "dev" FitnessLLMDataSource.STRAVA StravaStreams.HEARTRATE
        [Frame.mk [("data", [JVal.num 9])]]
        [Metrics.mk "42" "7" FitnessLLMDataSource.STRAVA StravaStreams.HEARTRATE 1 none none]
        5 JobOutcome.exc JobOutcome.exc (JobOutcome.state "DONE")).2 = false ∧
    (load_json_into_bq "p" "dev" FitnessLLMDataSource.STRAVA
        [StreamRun.mk StravaStreams.HEARTRATE [Frame.mk [("data", [JVal.num 9])]]
          [Metrics.mk "42" "7" FitnessLLMDataSource.STRAVA StravaStreams.HEARTRATE 1 none none]
          5 JobOutcome.exc JobOutcome.exc (JobOutcome.state "DONE")]).2 = false := by
  have h := c4_stream_failure_isolated "p" "dev" FitnessLLMDataSource.STRAVA
    (StreamRun.mk StravaStreams.HEARTRATE [Frame.mk [("data", [JVal.num 9])]]
      [Metrics.mk "42" "7" FitnessLLMDataSource.STRAVA StravaStreams.HEARTRATE 1 none none]
      5 JobOutcome.exc JobOutcome.exc (JobOutcome.state "DONE")) []
    (List.cons_ne_nil _ _) (List.cons_ne_nil _ _) (by decide) rfl
  exact ⟨h.1, h.2.2.2.2.2.trans rfl⟩
